import Mathlib

/-!
Shallow embedding of `src/js/view.js` (the presentation layer of the todo
list application): the command dispatcher `View.render`, the event binder
`View.bind`, and the delegated event dispatch used by the inline-edit
protocol.  Machine-level DOM state is modelled as explicit data; fallible
JavaScript statements (null dereferences, calling a non-function) are
modelled with `Except`.
-/

set_option autoImplicit false

namespace TodoView

/-- A primitive JavaScript value as it flows through the view layer. -/
inductive JsVal where
  | num (n : Int)
  | str (s : String)
  | bool (b : Bool)
  deriving DecidableEq, Repr

/--
The property bag passed as `parameter` to `render` for object-shaped
commands.  A field holding `none` models a JavaScript property that is
absent (reads as `undefined`).  Only the six property names that
`view.js` ever reads are modelled.
-/
structure ParamObj where
  id : Option JsVal := none
  title : Option JsVal := none
  completed : Option JsVal := none
  completedCount : Option JsVal := none
  visible : Option JsVal := none
  checked : Option JsVal := none
  deriving DecidableEq, Repr

/--
The untyped `parameter` argument of `render`: a primitive value, an
object, or `undefined` (JavaScript: the argument was not passed).
Property access on `.val` yields `undefined`, matching JavaScript
primitives; the claims never exercise property access on `.undef`.
-/
inductive Param where
  | val (v : JsVal)
  | obj (o : ParamObj)
  | undef
  deriving DecidableEq, Repr

/-- JavaScript truthiness of a possibly-undefined value. -/
def jsTruthy : Option JsVal → Bool
  | none => false
  | some (.num n) => n ≠ 0
  | some (.str s) => s ≠ ""
  | some (.bool b) => b

/-- JavaScript string coercion of a possibly-undefined value, as performed
by assignments such as `input.value = title`. -/
def jsValStr : Option JsVal → String
  | none => "undefined"
  | some (.num n) => toString n
  | some (.str s) => s
  | some (.bool b) => if b then "true" else "false"

/-- Read `parameter.id`. -/
def pId : Param → Option JsVal
  | .obj o => o.id
  | _ => none

/-- Read `parameter.title`. -/
def pTitle : Param → Option JsVal
  | .obj o => o.title
  | _ => none

/-- Read `parameter.completed` (the field the source actually reads in the
`clearCompletedButton` and `elementComplete` branches). -/
def pCompleted : Param → Option JsVal
  | .obj o => o.completed
  | _ => none

/-- Read `parameter.completedCount` (the field named by the specification
for `clearCompletedButton`; the source never reads it). -/
def pCompletedCount : Param → Option JsVal
  | .obj o => o.completedCount
  | _ => none

/-- Read `parameter.visible`. -/
def pVisible : Param → Option JsVal
  | .obj o => o.visible
  | _ => none

/-- Read `parameter.checked`. -/
def pChecked : Param → Option JsVal
  | .obj o => o.checked
  | _ => none

/-- `parameter` used directly as an item id, as in
`'[data-id="' + id + '"]'` inside `_removeItem`.  The `data-id`
attributes hold decimal integers, so the selector interpolation is
modelled as integer equality; a non-numeric parameter matches no node. -/
def pAsNum : Param → Option Int
  | .val (.num n) => some n
  | _ => none

/-- `parameter` used directly as the current page string in `_setFilter`. -/
def pAsStr : Param → Option String
  | .val (.str s) => some s
  | _ => none

/-- `parameter.id` used as an item id inside a `[data-id="..."]` selector. -/
def pIdNum (p : Param) : Option Int :=
  match pId p with
  | some (.num n) => some n
  | _ => none

/-- The edit input node that `_editItem` appends to a list item
(`<input class="edit">`): its value, focus state, and the
`dataset.iscanceled` cancellation flag (unset = `false`). -/
structure EditInput where
  value : String
  focused : Bool
  iscanceled : Bool
  deriving DecidableEq, Repr

/--
One rendered item node (`<li data-id="...">`) inside the list container.
Per the rendering-surface contract it carries a `data-id` attribute
(`id`), a visual class, the `.toggle` checkbox (the first `input`
descendant, `checked`), one `label`, and optionally the appended edit
input.  The model keeps at most one edit input per node; within the
specified edit protocol the source never appends a second one.
-/
structure ItemNode where
  id : Int
  className : String
  checked : Bool
  label : String
  edit : Option EditInput := none
  deriving DecidableEq, Repr

/-- The clear-completed control: its label markup and CSS display value. -/
structure ClearBtn where
  innerHTML : String
  display : String
  deriving DecidableEq, Repr

/-- A content region whose only observed attribute is its CSS display. -/
structure Region where
  display : String
  deriving DecidableEq, Repr

/-- The toggle-all checkbox control. -/
structure ToggleEl where
  checked : Bool
  deriving DecidableEq, Repr

/-- The new-todo text input. -/
structure InputEl where
  value : String
  deriving DecidableEq, Repr

/-- One filter link under `.filters`: its `href` and its class attribute. -/
structure FilterLink where
  href : String
  className : String
  deriving DecidableEq, Repr

/--
The rendering surface as observed by the view.  Each of the seven anchor
references resolved at construction (`qs('.todo-list')`, ...) is an
`Option`: `none` models an anchor that was absent from the document when
the `View` was constructed.  The filter links live outside the anchor set
and are reached by global queries in `_setFilter`.
-/
structure Doc where
  todoList : Option (List ItemNode)
  todoItemCounter : Option String
  clearCompleted : Option ClearBtn
  main : Option Region
  footer : Option Region
  toggleAll : Option ToggleEl
  newTodo : Option InputEl
  filters : List FilterLink
  deriving DecidableEq, Repr

/-- The template collaborator (`template.js` interface, external to this
core): markup builders consumed by `render`.  `clearCompletedButton`
receives whatever value `render` passes it, possibly `undefined`. -/
structure Template where
  «show» : Param → String
  itemCounter : Param → String
  clearCompletedButton : Option JsVal → String

/-- The view instance: the injected template collaborator plus the
surface semantics of assigning `innerHTML` (markup parses to child item
nodes). -/
structure View where
  template : Template
  parseMarkup : String → List ItemNode

/-- A JavaScript runtime fault (`TypeError`) raised by a view operation. -/
inductive JsError where
  | typeError (msg : String)
  deriving DecidableEq, Repr

/-- Split a character list on spaces (the token structure of a class
attribute). -/
def splitSpaces : List Char → List (List Char)
  | [] => [[]]
  | ch :: rest =>
    match splitSpaces rest, decide (ch = ' ') with
    | r, true => [] :: r
    | [], false => [[ch]]
    | w :: ws, false => (ch :: w) :: ws

/-- Class-attribute token test, as used by the `.selected` selector. -/
def hasClass (className token : String) : Bool :=
  (splitSpaces className.data).contains token.data

/-- JavaScript `String.prototype.replace` with a string pattern: replace
the first occurrence only. -/
def jsReplaceFirst (s pat rep : String) : String :=
  match s.splitOn pat with
  | [] => s
  | [x] => x
  | x :: rest => x ++ rep ++ String.intercalate pat rest

/-- `_removeItem`: `removeChild` of the first node matching
`[data-id="id"]`; without a match the list is unchanged. -/
def removeFirstNode (i : Int) : List ItemNode → List ItemNode
  | [] => []
  | n :: rest => if n.id = i then rest else n :: removeFirstNode i rest

/-- `_elementComplete` applied to the first node matching the id:
overwrite the visual class and set the first checkbox. -/
def completeFirstNode (i : Int) (completed : Bool) : List ItemNode → List ItemNode
  | [] => []
  | n :: rest =>
    if n.id = i then
      { n with className := if completed then "completed" else "", checked := completed } :: rest
    else n :: completeFirstNode i completed rest

/-- `_editItem` applied to the first node matching the id: append the
`editing` class and a focused edit input seeded with the title. -/
def editFirstNode (i : Int) (title : String) : List ItemNode → List ItemNode
  | [] => []
  | n :: rest =>
    if n.id = i then
      { n with className := n.className ++ " editing",
               edit := some { value := title, focused := true, iscanceled := false } } :: rest
    else n :: editFirstNode i title rest

/-- `_editItemDone` on the node list: no matching node is a silent no-op;
a matching node without an edit input faults (`removeChild(null)`);
otherwise the edit input is removed, the first `editing` occurrence is
stripped from the class, and every label is set to the title. -/
def editDoneList (i : Int) (title : String) : List ItemNode → Except JsError (List ItemNode)
  | [] => .ok []
  | n :: rest =>
    if n.id = i then
      match n.edit with
      | none => .error (.typeError "Failed to execute removeChild on Node")
      | some _ =>
        .ok ({ n with edit := none,
                      className := jsReplaceFirst n.className "editing" "",
                      label := title } :: rest)
    else (editDoneList i title rest).map (fun l => n :: l)

/-- `qs('.filters .selected').className = ''`: clear the class of the
first selected filter link; `none` when no link is selected (the source
then faults on the null dereference). -/
def clearFirstSelected : List FilterLink → Option (List FilterLink)
  | [] => none
  | l :: rest =>
    if hasClass l.className "selected" then some ({ l with className := "" } :: rest)
    else (clearFirstSelected rest).map (fun ls => l :: ls)

/-- `qs('.filters [href="#/page"]').className = 'selected'`: mark the
first link with the matching href; `none` when no link matches. -/
def selectFirstHref (href : String) : List FilterLink → Option (List FilterLink)
  | [] => none
  | l :: rest =>
    if l.href = href then some ({ l with className := "selected" } :: rest)
    else (selectFirstHref href rest).map (fun ls => l :: ls)

/-- `_setFilter`: clear the current `.selected` link, then mark the link
whose href matches the page.  Either missing node is a null dereference
fault in the source. -/
def setFilterImpl (doc : Doc) (page : Option String) : Except JsError Doc :=
  match clearFirstSelected doc.filters with
  | none => .error (.typeError "Cannot set className of null")
  | some fl1 =>
    match selectFirstHref ("#/" ++ (match page with | some s => s | none => "undefined")) fl1 with
    | none => .error (.typeError "Cannot set className of null")
    | some fl2 => .ok { doc with filters := fl2 }

/--
`View.prototype.render`, translated branch by branch from the source
dispatch table.  Each branch that dereferences an anchor faults with a
`TypeError` when that anchor is absent, exactly where the source would.
An unknown command name is `viewCommands[viewCmd]()` on `undefined`: a
`TypeError` before any mutation.
-/
def View.render (v : View) (doc : Doc) (viewCmd : String) (parameter : Param) :
    Except JsError Doc :=
  if viewCmd = "showEntries" then
    match doc.todoList with
    | none => .error (.typeError "Cannot set innerHTML of null")
    | some _ => .ok { doc with todoList := some (v.parseMarkup (v.template.«show» parameter)) }
  else if viewCmd = "removeItem" then
    match pAsNum parameter with
    | none => .ok doc
    | some i =>
      match doc.todoList with
      | none => .ok doc
      | some items => .ok { doc with todoList := some (removeFirstNode i items) }
  else if viewCmd = "updateElementCount" then
    match doc.todoItemCounter with
    | none => .error (.typeError "Cannot set innerHTML of null")
    | some _ => .ok { doc with todoItemCounter := some (v.template.itemCounter parameter) }
  else if viewCmd = "clearCompletedButton" then
    match doc.clearCompleted with
    | none => .error (.typeError "Cannot set innerHTML of null")
    | some _ =>
      let btn : ClearBtn :=
        { innerHTML := v.template.clearCompletedButton (pCompleted parameter),
          display := if jsTruthy (pVisible parameter) then "block" else "none" }
      .ok { doc with clearCompleted := some btn }
  else if viewCmd = "contentBlockVisibility" then
    match doc.main with
    | none => .error (.typeError "Cannot read style of null")
    | some _ =>
      match doc.footer with
      | none => .error (.typeError "Cannot read style of null")
      | some _ =>
        .ok { doc with
              main := some { display := if jsTruthy (pVisible parameter) then "block" else "none" },
              footer := some { display := if jsTruthy (pVisible parameter) then "block" else "none" } }
  else if viewCmd = "toggleAll" then
    match doc.toggleAll with
    | none => .error (.typeError "Cannot set checked of null")
    | some _ => .ok { doc with toggleAll := some { checked := jsTruthy (pChecked parameter) } }
  else if viewCmd = "setFilter" then
    setFilterImpl doc (pAsStr parameter)
  else if viewCmd = "clearNewTodo" then
    match doc.newTodo with
    | none => .error (.typeError "Cannot set value of null")
    | some _ => .ok { doc with newTodo := some { value := "" } }
  else if viewCmd = "elementComplete" then
    match pIdNum parameter with
    | none => .ok doc
    | some i =>
      .ok { doc with todoList :=
        doc.todoList.map (completeFirstNode i (jsTruthy (pCompleted parameter))) }
  else if viewCmd = "editItem" then
    match pIdNum parameter with
    | none => .ok doc
    | some i =>
      .ok { doc with todoList :=
        doc.todoList.map (editFirstNode i (jsValStr (pTitle parameter))) }
  else if viewCmd = "editItemDone" then
    match pIdNum parameter with
    | none => .ok doc
    | some i =>
      match doc.todoList with
      | none => .ok doc
      | some items =>
        (editDoneList i (jsValStr (pTitle parameter)) items).map
          (fun items2 => { doc with todoList := some items2 })
  else
    .error (.typeError "viewCommands[viewCmd] is not a function")

/-- `ENTER_KEY` of the view instance. -/
def ENTER_KEY : Int := 13

/-- `ESCAPE_KEY` of the view instance. -/
def ESCAPE_KEY : Int := 27

/--
One rendering-surface subscription created by `View.bind`.  Modelled from
the spec: the query/subscription primitives `$on` and `$delegate` are
external collaborators absent from `src/`; per the spec they are
"direct event subscription" and "event delegation (subscribe once on a
container, dispatch to matching descendant)" over the standard surface
listener model, so each call appends one listener (a replace-per-target
semantics is ruled out because `itemRemove` and `itemToggle` both
delegate `click` on the same list container and must coexist).  Each
constructor records the concrete closure the source registers; `H` is the
opaque handler token whose invocations are observed as
`(handler, payload)` pairs.
-/
inductive Reg (H : Type) where
  | onNewTodo (h : H)
  | onClearCompleted (h : H)
  | onToggleAll (h : H)
  | delegateLabelDblclick (h : H)
  | delegateDestroyClick (h : H)
  | delegateToggleClick (h : H)
  | delegateEditBlur (h : H)
  | delegateEditKeypress
  | delegateEditKeyup (h : H)
  deriving DecidableEq, Repr

/-- The normalized payload a semantic-event handler receives. -/
inductive Payload where
  | str (s : String)
  | noArgs
  | completedP (completed : Bool)
  | idP (id : Int)
  | idCompletedP (id : Int) (completed : Bool)
  | idTitleP (id : Int) (title : String)
  deriving DecidableEq, Repr

/--
`View.prototype.bind`, translated case by case from the source `switch`.
`doc` supplies the anchor references; registering on an absent anchor is
`addEventListener` on `null`, a `TypeError` (this is the `$on`/`$delegate`
null dereference, spec-modelled as above).  An event name outside the
enumeration falls through the `switch` and leaves the registrations
unchanged.  `itemEditDone` installs two delegated listeners
(`_bindItemEditDone`: blur, then keypress); `itemEditCancel` installs the
keyup listener (`_bindItemEditCancel`).
-/
def View.bind {H : Type} (doc : Doc) (regs : List (Reg H)) (event : String) (handler : H) :
    Except JsError (List (Reg H)) :=
  if event = "newTodo" then
    match doc.newTodo with
    | none => .error (.typeError "Cannot call addEventListener on null")
    | some _ => .ok (regs ++ [.onNewTodo handler])
  else if event = "removeCompleted" then
    match doc.clearCompleted with
    | none => .error (.typeError "Cannot call addEventListener on null")
    | some _ => .ok (regs ++ [.onClearCompleted handler])
  else if event = "toggleAll" then
    match doc.toggleAll with
    | none => .error (.typeError "Cannot call addEventListener on null")
    | some _ => .ok (regs ++ [.onToggleAll handler])
  else if event = "itemEdit" then
    match doc.todoList with
    | none => .error (.typeError "Cannot call addEventListener on null")
    | some _ => .ok (regs ++ [.delegateLabelDblclick handler])
  else if event = "itemRemove" then
    match doc.todoList with
    | none => .error (.typeError "Cannot call addEventListener on null")
    | some _ => .ok (regs ++ [.delegateDestroyClick handler])
  else if event = "itemToggle" then
    match doc.todoList with
    | none => .error (.typeError "Cannot call addEventListener on null")
    | some _ => .ok (regs ++ [.delegateToggleClick handler])
  else if event = "itemEditDone" then
    match doc.todoList with
    | none => .error (.typeError "Cannot call addEventListener on null")
    | some _ => .ok (regs ++ [.delegateEditBlur handler, .delegateEditKeypress])
  else if event = "itemEditCancel" then
    match doc.todoList with
    | none => .error (.typeError "Cannot call addEventListener on null")
    | some _ => .ok (regs ++ [.delegateEditKeyup handler])
  else
    .ok regs

/--
The edit-field element a delegated raw event fires on: the id read from
its enclosing `li` (`_itemId`), its current value, and the
`dataset.iscanceled` flag.  The model covers a focused edit field, the
state in which these listeners fire.
-/
structure EditTarget where
  itemId : Int
  value : String
  iscanceled : Bool
  deriving DecidableEq, Repr

/-- A raw rendering-surface event delivered to the registered listeners. -/
inductive RawEvent where
  | newTodoChange (inputValue : String)
  | clearClick
  | toggleAllClick (checked : Bool)
  | labelDblclick (itemId : Int)
  | destroyClick (itemId : Int)
  | toggleClick (itemId : Int) (checked : Bool)
  | editBlur (t : EditTarget)
  | editKeypress (t : EditTarget) (keyCode : Int)
  | editKeyup (t : EditTarget) (keyCode : Int)
  deriving DecidableEq, Repr

/-- Run the registered blur listeners on an edit field (the synchronous
dispatch performed by `this.blur()` and by a direct blur): each
`_bindItemEditDone` blur closure raises `itemEditDone {id, title}` unless
`dataset.iscanceled` is set. -/
def dispatchBlur {H : Type} : List (Reg H) → EditTarget → List (H × Payload)
  | [], _ => []
  | .delegateEditBlur h :: rest, t =>
    (if t.iscanceled then [] else [(h, .idTitleP t.itemId t.value)]) ++ dispatchBlur rest t
  | _ :: rest, t => dispatchBlur rest t

/--
The handler invocations produced when one registered listener receives a
raw event.  The keypress closure forces `this.blur()` on Enter; the keyup
closure (`_bindItemEditCancel`) on Escape first sets
`dataset.iscanceled`, then forces `this.blur()` (the blur listeners run
against the flagged field), then invokes the cancel handler with `{id}`.
`allRegs` is the full listener list the forced blur is dispatched
through.
-/
def dispatchStep {H : Type} (allRegs : List (Reg H)) (r : Reg H) (e : RawEvent) :
    List (H × Payload) :=
  match r, e with
  | .onNewTodo h, .newTodoChange value => [(h, .str value)]
  | .onClearCompleted h, .clearClick => [(h, .noArgs)]
  | .onToggleAll h, .toggleAllClick c => [(h, .completedP c)]
  | .delegateLabelDblclick h, .labelDblclick i => [(h, .idP i)]
  | .delegateDestroyClick h, .destroyClick i => [(h, .idP i)]
  | .delegateToggleClick h, .toggleClick i c => [(h, .idCompletedP i c)]
  | .delegateEditBlur h, .editBlur t =>
    if t.iscanceled then [] else [(h, .idTitleP t.itemId t.value)]
  | .delegateEditKeypress, .editKeypress t k =>
    if k = ENTER_KEY then dispatchBlur allRegs t else []
  | .delegateEditKeyup h, .editKeyup t k =>
    if k = ESCAPE_KEY then
      dispatchBlur allRegs { t with iscanceled := true } ++ [(h, .idP t.itemId)]
    else []
  | _, _ => []

/-- Deliver a raw event to a suffix of the listener list, in registration
order. -/
def dispatchFrom {H : Type} (allRegs : List (Reg H)) : List (Reg H) → RawEvent → List (H × Payload)
  | [], _ => []
  | r :: rest, e => dispatchStep allRegs r e ++ dispatchFrom allRegs rest e

/-- Deliver a raw event to every registered listener, in registration
order, collecting the semantic handler invocations it produces. -/
def fireEvent {H : Type} (regs : List (Reg H)) (e : RawEvent) : List (H × Payload) :=
  dispatchFrom regs regs e

/-- A concrete template whose clear-button builder distinguishes its
argument, used to evaluate the model at concrete inputs. -/
def cexTemplate : Template where
  «show» := fun _ => ""
  itemCounter := fun _ => ""
  clearCompletedButton := fun o =>
    match o with
    | some (.num n) => "N" ++ toString n
    | _ => "UNDEF"

/-- A concrete view built over `cexTemplate`. -/
def cexView : View where
  template := cexTemplate
  parseMarkup := fun _ => []

/-- A document in which every anchor reference resolved at construction. -/
def allAnchorsDoc (tl : List ItemNode) (cnt : String) (cb : ClearBtn) (mn ft : Region)
    (tg : ToggleEl) (nt : InputEl) (fl : List FilterLink) : Doc :=
  ⟨some tl, some cnt, some cb, some mn, some ft, some tg, some nt, fl⟩

/-- A concrete fully-anchored document. -/
def cexDoc : Doc := allAnchorsDoc [] "" ⟨"", ""⟩ ⟨""⟩ ⟨""⟩ ⟨false⟩ ⟨""⟩ []

/-- A concrete document whose clear-completed anchor was absent at
construction. -/
def noClearDoc : Doc :=
  ⟨some [], some "", none, some ⟨""⟩, some ⟨""⟩, some ⟨false⟩, some ⟨""⟩, []⟩

/-- Claim C1, counterexample: with the clear-completed anchor absent at
construction, `render('clearCompletedButton', ...)` does not complete as
a silent no-op; it faults with a `TypeError` (the source dereferences
`this.$clearCompleted` with no null check). -/
theorem c1_absent_anchor_noop_cex :
    View.render cexView noClearDoc "clearCompletedButton"
        (.obj { completed := some (.num 1), visible := some (.bool true) }) =
      .error (.typeError "Cannot set innerHTML of null") := rfl

/-- Claim C1, amended: for every anchor in the reference set, each render
command whose effect targets that anchor propagates a `TypeError` when
the anchor resolved to absent at construction (the source performs the
dereference unconditionally); the absence is not degraded to a no-op. -/
theorem c1_absent_anchor_faults (v : View) (p : Param)
    (tl : Option (List ItemNode)) (cnt : Option String) (cb : Option ClearBtn)
    (mn ft : Option Region) (mnR : Region) (tg : Option ToggleEl) (nt : Option InputEl)
    (fl : List FilterLink) :
    (∃ e, View.render v ⟨none, cnt, cb, mn, ft, tg, nt, fl⟩ "showEntries" p = .error e) ∧
    (∃ e, View.render v ⟨tl, none, cb, mn, ft, tg, nt, fl⟩ "updateElementCount" p = .error e) ∧
    (∃ e, View.render v ⟨tl, cnt, none, mn, ft, tg, nt, fl⟩ "clearCompletedButton" p = .error e) ∧
    (∃ e, View.render v ⟨tl, cnt, cb, none, ft, tg, nt, fl⟩ "contentBlockVisibility" p = .error e) ∧
    (∃ e, View.render v ⟨tl, cnt, cb, some mnR, none, tg, nt, fl⟩ "contentBlockVisibility" p
      = .error e) ∧
    (∃ e, View.render v ⟨tl, cnt, cb, mn, ft, none, nt, fl⟩ "toggleAll" p = .error e) ∧
    (∃ e, View.render v ⟨tl, cnt, cb, mn, ft, tg, none, fl⟩ "clearNewTodo" p = .error e) :=
  ⟨⟨_, rfl⟩, ⟨_, rfl⟩, ⟨_, rfl⟩, ⟨_, rfl⟩, ⟨_, rfl⟩, ⟨_, rfl⟩, ⟨_, rfl⟩⟩

/-- Claim C4: for every command name outside the fixed enumeration and
every parameter, `render` fails fast with a `TypeError`
(`viewCommands[viewCmd]` is `undefined` and is called), mutating nothing. -/
theorem c4_unknown_command_faults (v : View) (d : Doc) (p : Param) (viewCmd : String)
    (h : viewCmd ∉ ["showEntries", "removeItem", "updateElementCount", "clearCompletedButton",
      "contentBlockVisibility", "toggleAll", "setFilter", "clearNewTodo", "elementComplete",
      "editItem", "editItemDone"]) :
    View.render v d viewCmd p = .error (.typeError "viewCommands[viewCmd] is not a function") := by
  simp only [List.mem_cons, List.not_mem_nil, or_false, not_or] at h
  obtain ⟨h1, h2, h3, h4, h5, h6, h7, h8, h9, h10, h11⟩ := h
  simp [View.render, h1, h2, h3, h4, h5, h6, h7, h8, h9, h10, h11]

/-- Witness for C4 at the concrete unknown command name `bogus`. -/
theorem c4_unknown_command_faults_witness :
    ("bogus" ∉ ["showEntries", "removeItem", "updateElementCount", "clearCompletedButton",
      "contentBlockVisibility", "toggleAll", "setFilter", "clearNewTodo", "elementComplete",
      "editItem", "editItemDone"]) ∧
    View.render cexView cexDoc "bogus" Param.undef =
      .error (.typeError "viewCommands[viewCmd] is not a function") :=
  ⟨by decide, c4_unknown_command_faults cexView cexDoc Param.undef "bogus" (by decide)⟩

/-- Claim C10: for every event name outside the enumerated set, `bind` is
a silent no-op: the registrations are unchanged (so no handler can ever
be invoked through them) and no fault is raised, in contrast to
`render`'s unknown-command fault. -/
theorem c10_unknown_event_noop {H : Type} (d : Doc) (regs : List (Reg H)) (event : String)
    (handler : H)
    (h : event ∉ ["newTodo", "removeCompleted", "toggleAll", "itemEdit", "itemRemove",
      "itemToggle", "itemEditDone", "itemEditCancel"]) :
    View.bind d regs event handler = .ok regs := by
  simp only [List.mem_cons, List.not_mem_nil, or_false, not_or] at h
  obtain ⟨h1, h2, h3, h4, h5, h6, h7, h8⟩ := h
  simp [View.bind, h1, h2, h3, h4, h5, h6, h7, h8]

/-- Witness for C10 at the concrete unknown event name `bogusEvent`. -/
theorem c10_unknown_event_noop_witness :
    ("bogusEvent" ∉ ["newTodo", "removeCompleted", "toggleAll", "itemEdit", "itemRemove",
      "itemToggle", "itemEditDone", "itemEditCancel"]) ∧
    View.bind noClearDoc ([Reg.onNewTodo 7] : List (Reg Nat)) "bogusEvent" 9 =
      .ok [Reg.onNewTodo 7] :=
  ⟨by decide, c10_unknown_event_noop noClearDoc [Reg.onNewTodo 7] "bogusEvent" 9 (by decide)⟩

/-- Claim C2, counterexample: two successive `bind('newTodo', ...)` calls
leave two live subscriptions, and firing the change trigger invokes both
handlers (registration is additive), contradicting exactly-one
subscription with only the last handler invoked. -/
theorem c2_last_registration_wins_cex :
    View.bind cexDoc ([] : List (Reg Nat)) "newTodo" 0 = .ok [.onNewTodo 0] ∧
    View.bind cexDoc ([Reg.onNewTodo 0] : List (Reg Nat)) "newTodo" 1 =
      .ok [.onNewTodo 0, .onNewTodo 1] ∧
    ([Reg.onNewTodo 0, Reg.onNewTodo 1] : List (Reg Nat)).length = 2 ∧
    fireEvent ([Reg.onNewTodo 0, Reg.onNewTodo 1] : List (Reg Nat)) (.newTodoChange "x") =
      [(0, .str "x"), (1, .str "x")] ∧
    fireEvent ([Reg.onNewTodo 0, Reg.onNewTodo 1] : List (Reg Nat)) (.newTodoChange "x") ≠
      [(1, .str "x")] :=
  ⟨rfl, rfl, rfl, rfl, by decide⟩

/-- Claim C2, amended: for every enumerated event name, registration is
additive: binding h1 then h2 leaves both subscriptions in place (two per
call site; `itemEditDone` installs a blur and a keypress listener each
time), and when the raw trigger fires, h1 and h2 are both invoked, in
registration order, with the same normalized payload. -/
theorem c2_bind_additive {H : Type} (h1 h2 : H) (tl : List ItemNode) (cnt : String)
    (cb : ClearBtn) (mn ft : Region) (tg : ToggleEl) (nt : InputEl) (fl : List FilterLink)
    (s : String) (c : Bool) (i : Int) (val : String) :
    (View.bind (allAnchorsDoc tl cnt cb mn ft tg nt fl) [] "newTodo" h1 =
        .ok [.onNewTodo h1] ∧
      View.bind (allAnchorsDoc tl cnt cb mn ft tg nt fl) [.onNewTodo h1] "newTodo" h2 =
        .ok [.onNewTodo h1, .onNewTodo h2] ∧
      fireEvent [Reg.onNewTodo h1, .onNewTodo h2] (.newTodoChange s) =
        [(h1, .str s), (h2, .str s)]) ∧
    (View.bind (allAnchorsDoc tl cnt cb mn ft tg nt fl) [] "removeCompleted" h1 =
        .ok [.onClearCompleted h1] ∧
      View.bind (allAnchorsDoc tl cnt cb mn ft tg nt fl) [.onClearCompleted h1]
          "removeCompleted" h2 =
        .ok [.onClearCompleted h1, .onClearCompleted h2] ∧
      fireEvent [Reg.onClearCompleted h1, .onClearCompleted h2] .clearClick =
        [(h1, .noArgs), (h2, .noArgs)]) ∧
    (View.bind (allAnchorsDoc tl cnt cb mn ft tg nt fl) [] "toggleAll" h1 =
        .ok [.onToggleAll h1] ∧
      View.bind (allAnchorsDoc tl cnt cb mn ft tg nt fl) [.onToggleAll h1] "toggleAll" h2 =
        .ok [.onToggleAll h1, .onToggleAll h2] ∧
      fireEvent [Reg.onToggleAll h1, .onToggleAll h2] (.toggleAllClick c) =
        [(h1, .completedP c), (h2, .completedP c)]) ∧
    (View.bind (allAnchorsDoc tl cnt cb mn ft tg nt fl) [] "itemEdit" h1 =
        .ok [.delegateLabelDblclick h1] ∧
      View.bind (allAnchorsDoc tl cnt cb mn ft tg nt fl) [.delegateLabelDblclick h1]
          "itemEdit" h2 =
        .ok [.delegateLabelDblclick h1, .delegateLabelDblclick h2] ∧
      fireEvent [Reg.delegateLabelDblclick h1, .delegateLabelDblclick h2] (.labelDblclick i) =
        [(h1, .idP i), (h2, .idP i)]) ∧
    (View.bind (allAnchorsDoc tl cnt cb mn ft tg nt fl) [] "itemRemove" h1 =
        .ok [.delegateDestroyClick h1] ∧
      View.bind (allAnchorsDoc tl cnt cb mn ft tg nt fl) [.delegateDestroyClick h1]
          "itemRemove" h2 =
        .ok [.delegateDestroyClick h1, .delegateDestroyClick h2] ∧
      fireEvent [Reg.delegateDestroyClick h1, .delegateDestroyClick h2] (.destroyClick i) =
        [(h1, .idP i), (h2, .idP i)]) ∧
    (View.bind (allAnchorsDoc tl cnt cb mn ft tg nt fl) [] "itemToggle" h1 =
        .ok [.delegateToggleClick h1] ∧
      View.bind (allAnchorsDoc tl cnt cb mn ft tg nt fl) [.delegateToggleClick h1]
          "itemToggle" h2 =
        .ok [.delegateToggleClick h1, .delegateToggleClick h2] ∧
      fireEvent [Reg.delegateToggleClick h1, .delegateToggleClick h2] (.toggleClick i c) =
        [(h1, .idCompletedP i c), (h2, .idCompletedP i c)]) ∧
    (View.bind (allAnchorsDoc tl cnt cb mn ft tg nt fl) [] "itemEditDone" h1 =
        .ok [.delegateEditBlur h1, .delegateEditKeypress] ∧
      View.bind (allAnchorsDoc tl cnt cb mn ft tg nt fl)
          [.delegateEditBlur h1, .delegateEditKeypress] "itemEditDone" h2 =
        .ok [.delegateEditBlur h1, .delegateEditKeypress, .delegateEditBlur h2,
          .delegateEditKeypress] ∧
      fireEvent [Reg.delegateEditBlur h1, .delegateEditKeypress, .delegateEditBlur h2,
          .delegateEditKeypress] (.editBlur ⟨i, val, false⟩) =
        [(h1, .idTitleP i val), (h2, .idTitleP i val)]) ∧
    (View.bind (allAnchorsDoc tl cnt cb mn ft tg nt fl) [] "itemEditCancel" h1 =
        .ok [.delegateEditKeyup h1] ∧
      View.bind (allAnchorsDoc tl cnt cb mn ft tg nt fl) [.delegateEditKeyup h1]
          "itemEditCancel" h2 =
        .ok [.delegateEditKeyup h1, .delegateEditKeyup h2] ∧
      fireEvent [Reg.delegateEditKeyup h1, .delegateEditKeyup h2] (.editKeyup ⟨i, val, false⟩ 27) =
        [(h1, .idP i), (h2, .idP i)]) :=
  ⟨⟨rfl, rfl, rfl⟩, ⟨rfl, rfl, rfl⟩, ⟨rfl, rfl, rfl⟩, ⟨rfl, rfl, rfl⟩,
    ⟨rfl, rfl, rfl⟩, ⟨rfl, rfl, rfl⟩, ⟨rfl, rfl, rfl⟩, ⟨rfl, rfl, rfl⟩⟩

/-- Claim C5: with the itemEditDone and itemEditCancel listeners bound,
Escape (keyCode 27) on an active (uncancelled) edit field sets the
cancellation flag before forcing blur, so the forced blur raises nothing,
and the only handler invocation is the cancel handler with the item id;
a subsequent blur on the flagged field is likewise suppressed. -/
theorem c5_escape_suppresses_commit {H : Type} (hd hc : H) (tl : List ItemNode) (cnt : String)
    (cb : ClearBtn) (mn ft : Region) (tg : ToggleEl) (nt : InputEl) (fl : List FilterLink)
    (i : Int) (val : String) :
    View.bind (allAnchorsDoc tl cnt cb mn ft tg nt fl) [] "itemEditDone" hd =
      .ok [.delegateEditBlur hd, .delegateEditKeypress] ∧
    View.bind (allAnchorsDoc tl cnt cb mn ft tg nt fl)
        [.delegateEditBlur hd, .delegateEditKeypress] "itemEditCancel" hc =
      .ok [.delegateEditBlur hd, .delegateEditKeypress, .delegateEditKeyup hc] ∧
    fireEvent [Reg.delegateEditBlur hd, .delegateEditKeypress, .delegateEditKeyup hc]
        (.editKeyup ⟨i, val, false⟩ 27) =
      [(hc, .idP i)] ∧
    fireEvent [Reg.delegateEditBlur hd, .delegateEditKeypress, .delegateEditKeyup hc]
        (.editBlur ⟨i, val, true⟩) =
      [] :=
  ⟨rfl, rfl, rfl, rfl⟩

/-- Claim C7, amended: `render('clearCompletedButton', p)` reads the
`completed` field of `p` (not `completedCount`): it replaces the control
label with the template builder applied to `p.completed` and sets the
display to block exactly when `p.visible` is truthy. -/
theorem c7_clearCompletedButton_effect (v : View) (p : Param) (tl : Option (List ItemNode))
    (cnt : Option String) (btn : ClearBtn) (mn ft : Option Region) (tg : Option ToggleEl)
    (nt : Option InputEl) (fl : List FilterLink) :
    View.render v ⟨tl, cnt, some btn, mn, ft, tg, nt, fl⟩ "clearCompletedButton" p =
      .ok ⟨tl, cnt, some ⟨v.template.clearCompletedButton (pCompleted p),
            if jsTruthy (pVisible p) then "block" else "none"⟩, mn, ft, tg, nt, fl⟩ := rfl

/-- A node list without the id is left untouched by `_removeItem`. -/
theorem removeFirstNode_not_mem (i : Int) (l : List ItemNode) (h : ∀ n ∈ l, n.id ≠ i) :
    removeFirstNode i l = l := by
  induction l with
  | nil => rfl
  | cons n rest ih =>
    have hn : ¬n.id = i := h n (List.mem_cons_self n rest)
    simp only [removeFirstNode, if_neg hn]
    rw [ih fun m hm => h m (List.mem_cons_of_mem n hm)]

/-- Under the at-most-one-node-per-identifier invariant, removing the
first match is removing every match. -/
theorem removeFirstNode_eq_filter (i : Int) (l : List ItemNode)
    (h : (l.map ItemNode.id).Nodup) :
    removeFirstNode i l = l.filter (fun n => n.id != i) := by
  induction l with
  | nil => rfl
  | cons n rest ih =>
    rw [List.map_cons, List.nodup_cons] at h
    obtain ⟨hni, hrest⟩ := h
    by_cases hn : n.id = i
    · simp only [removeFirstNode, if_pos hn, List.filter_cons]
      have hfalse : (n.id != i) = false := by simp [hn]
      rw [hfalse]
      simp only [Bool.false_eq_true, if_false]
      symm
      apply List.filter_eq_self.mpr
      intro m hm
      have : m.id ≠ n.id := fun he => hni (he ▸ List.mem_map_of_mem ItemNode.id hm)
      simp [bne_iff_ne, hn ▸ this]
    · simp only [removeFirstNode, if_neg hn, List.filter_cons]
      have htrue : (n.id != i) = true := by simp [bne_iff_ne, hn]
      rw [htrue]
      simp only [if_true]
      rw [ih hrest]

/-- A node list without the id is left untouched by `_elementComplete`. -/
theorem completeFirstNode_not_mem (i : Int) (c : Bool) (l : List ItemNode)
    (h : ∀ n ∈ l, n.id ≠ i) :
    completeFirstNode i c l = l := by
  induction l with
  | nil => rfl
  | cons n rest ih =>
    have hn : ¬n.id = i := h n (List.mem_cons_self n rest)
    simp only [completeFirstNode, if_neg hn]
    rw [ih fun m hm => h m (List.mem_cons_of_mem n hm)]

/-- `_elementComplete` rewrites exactly the first matching node. -/
theorem completeFirstNode_first (i : Int) (c : Bool) (pre post : List ItemNode) (nd : ItemNode)
    (hpre : ∀ m ∈ pre, m.id ≠ i) (hid : nd.id = i) :
    completeFirstNode i c (pre ++ nd :: post) =
      pre ++ ({ nd with className := if c then "completed" else "", checked := c } :: post) := by
  induction pre with
  | nil => simp [completeFirstNode, hid]
  | cons m rest ih =>
    have hm : ¬m.id = i := hpre m (List.mem_cons_self m rest)
    simp only [List.cons_append, completeFirstNode, if_neg hm]
    exact congrArg (fun l => m :: l) (ih fun x hx => hpre x (List.mem_cons_of_mem m hx))

/-- A node list without the id is left untouched by `_editItem`. -/
theorem editFirstNode_not_mem (i : Int) (t : String) (l : List ItemNode)
    (h : ∀ n ∈ l, n.id ≠ i) :
    editFirstNode i t l = l := by
  induction l with
  | nil => rfl
  | cons n rest ih =>
    have hn : ¬n.id = i := h n (List.mem_cons_self n rest)
    simp only [editFirstNode, if_neg hn]
    rw [ih fun m hm => h m (List.mem_cons_of_mem n hm)]

/-- A node list without the id is a silent no-op for `_editItemDone`. -/
theorem editDoneList_not_mem (i : Int) (t : String) (l : List ItemNode)
    (h : ∀ n ∈ l, n.id ≠ i) :
    editDoneList i t l = .ok l := by
  induction l with
  | nil => rfl
  | cons n rest ih =>
    have hn : ¬n.id = i := h n (List.mem_cons_self n rest)
    simp only [editDoneList, if_neg hn]
    rw [ih fun m hm => h m (List.mem_cons_of_mem n hm)]
    rfl

/-- `_editItemDone` faults when the first matching node carries no edit
input: the source removes a null child. -/
theorem editDoneList_fault (i : Int) (t : String) (pre post : List ItemNode) (nd : ItemNode)
    (hpre : ∀ m ∈ pre, m.id ≠ i) (hid : nd.id = i) (hedit : nd.edit = none) :
    editDoneList i t (pre ++ nd :: post) =
      .error (.typeError "Failed to execute removeChild on Node") := by
  induction pre with
  | nil => simp [editDoneList, hid, hedit]
  | cons m rest ih =>
    have hm : ¬m.id = i := hpre m (List.mem_cons_self m rest)
    simp only [List.cons_append, editDoneList, if_neg hm]
    exact Eq.trans
      (congrArg (Except.map fun l => m :: l)
        (ih fun x hx => hpre x (List.mem_cons_of_mem m hx)))
      rfl

/-- Without any selected filter link, the first `_setFilter` query returns
null. -/
theorem clearFirstSelected_none (fl : List FilterLink)
    (h : ∀ l ∈ fl, hasClass l.className "selected" = false) :
    clearFirstSelected fl = none := by
  induction fl with
  | nil => rfl
  | cons l rest ih =>
    have hl : ¬(hasClass l.className "selected" = true) := by
      simp [h l (List.mem_cons_self l rest)]
    simp only [clearFirstSelected, if_neg hl]
    rw [ih fun m hm => h m (List.mem_cons_of_mem l hm)]
    rfl

/-- Without a filter link matching the href, the second `_setFilter` query
returns null. -/
theorem selectFirstHref_none (href : String) (fl : List FilterLink)
    (h : ∀ l ∈ fl, l.href ≠ href) :
    selectFirstHref href fl = none := by
  induction fl with
  | nil => rfl
  | cons l rest ih =>
    have hl : ¬l.href = href := h l (List.mem_cons_self l rest)
    simp only [selectFirstHref, if_neg hl]
    rw [ih fun m hm => h m (List.mem_cons_of_mem l hm)]
    rfl

/-- `_setFilter` faults when no link carries the selected marker. -/
theorem setFilterImpl_no_selected (doc : Doc) (page : Option String)
    (h : clearFirstSelected doc.filters = none) :
    setFilterImpl doc page = .error (.typeError "Cannot set className of null") := by
  unfold setFilterImpl
  rw [h]

/-- `_setFilter` faults when no link matches the requested page href. -/
theorem setFilterImpl_no_href (doc : Doc) (s : String) (fl1 : List FilterLink)
    (h1 : clearFirstSelected doc.filters = some fl1)
    (h2 : selectFirstHref ("#/" ++ s) fl1 = none) :
    setFilterImpl doc (some s) = .error (.typeError "Cannot set className of null") := by
  unfold setFilterImpl
  rw [h1]
  show (match selectFirstHref ("#/" ++ s) fl1 with
    | none => (.error (.typeError "Cannot set className of null") : Except JsError Doc)
    | some fl2 => .ok { doc with filters := fl2 }) = _
  rw [h2]

/-- Claim C6: under the at-most-one-node-per-identifier invariant,
`render('removeItem', id)` removes exactly the node with that id and
leaves every other node (identifier and relative order included)
unchanged; when no node carries the id it is a no-op, and repeating the
call after a successful removal is also a no-op. -/
theorem c6_removeItem_exact (v : View) (items : List ItemNode) (i : Int)
    (cnt : Option String) (cb : Option ClearBtn) (mn ft : Option Region) (tg : Option ToggleEl)
    (nt : Option InputEl) (fl : List FilterLink)
    (hnd : (items.map ItemNode.id).Nodup) :
    View.render v ⟨some items, cnt, cb, mn, ft, tg, nt, fl⟩ "removeItem" (.val (.num i)) =
      .ok ⟨some (items.filter (fun n => n.id != i)), cnt, cb, mn, ft, tg, nt, fl⟩ ∧
    View.render v ⟨some (items.filter (fun n => n.id != i)), cnt, cb, mn, ft, tg, nt, fl⟩
        "removeItem" (.val (.num i)) =
      .ok ⟨some (items.filter (fun n => n.id != i)), cnt, cb, mn, ft, tg, nt, fl⟩ ∧
    ((∀ n ∈ items, n.id ≠ i) →
      View.render v ⟨some items, cnt, cb, mn, ft, tg, nt, fl⟩ "removeItem" (.val (.num i)) =
        .ok ⟨some items, cnt, cb, mn, ft, tg, nt, fl⟩) := by
  refine ⟨?_, ?_, ?_⟩
  · exact congrArg (fun l => Except.ok (⟨some l, cnt, cb, mn, ft, tg, nt, fl⟩ : Doc))
      (removeFirstNode_eq_filter i items hnd)
  · refine congrArg (fun l => Except.ok (⟨some l, cnt, cb, mn, ft, tg, nt, fl⟩ : Doc))
      (removeFirstNode_not_mem i _ fun n hn => ?_)
    have := (List.mem_filter.mp hn).2
    simpa [bne_iff_ne] using this
  · intro h
    exact congrArg (fun l => Except.ok (⟨some l, cnt, cb, mn, ft, tg, nt, fl⟩ : Doc))
      (removeFirstNode_not_mem i items h)

/-- Concrete two-node list with distinct identifiers. -/
def wItems : List ItemNode :=
  [⟨1, "", false, "a", none⟩, ⟨2, "completed", true, "b", none⟩]

/-- Witness for C6: removing id 1 from the concrete two-node list keeps
exactly the node with id 2. -/
theorem c6_removeItem_exact_witness :
    (wItems.map ItemNode.id).Nodup ∧
    View.render cexView ⟨some wItems, some "", some ⟨"", ""⟩, some ⟨""⟩, some ⟨""⟩,
        some ⟨false⟩, some ⟨""⟩, []⟩ "removeItem" (.val (.num 1)) =
      .ok ⟨some [⟨2, "completed", true, "b", none⟩], some "", some ⟨"", ""⟩, some ⟨""⟩,
        some ⟨""⟩, some ⟨false⟩, some ⟨""⟩, []⟩ :=
  ⟨by decide,
    (c6_removeItem_exact cexView wItems 1 (some "") (some ⟨"", ""⟩) (some ⟨""⟩) (some ⟨""⟩)
      (some ⟨false⟩) (some ⟨""⟩) [] (by decide)).1⟩

/-- Claim C3, counterexample: `editItemDone` faults when the target node
exists but carries no edit field, and `setFilter` faults when no link
carries the selected marker — neither returns silently. -/
theorem c3_missing_node_noop_cex :
    View.render cexView
        (allAnchorsDoc [⟨1, "", false, "t", none⟩] "" ⟨"", ""⟩ ⟨""⟩ ⟨""⟩ ⟨false⟩ ⟨""⟩ [])
        "editItemDone" (.obj { id := some (.num 1), title := some (.str "x") }) =
      .error (.typeError "Failed to execute removeChild on Node") ∧
    View.render cexView
        (allAnchorsDoc [] "" ⟨"", ""⟩ ⟨""⟩ ⟨""⟩ ⟨false⟩ ⟨""⟩
          [⟨"#/", ""⟩, ⟨"#/active", ""⟩, ⟨"#/completed", ""⟩])
        "setFilter" (.val (.str "active")) =
      .error (.typeError "Cannot set className of null") :=
  ⟨rfl, rfl⟩

/-- Claim C3, amended: the by-id display commands (`removeItem`,
`elementComplete`, `editItem`, `editItemDone`) return silently with the
surface unchanged when no node carries the id; but `editItemDone` faults
when the node exists without an edit field, and `setFilter` faults when
no link carries the selected marker or no link matches the requested
page. -/
theorem c3_missing_node_behaviour (v : View) (items pre post : List ItemNode) (nd : ItemNode)
    (i : Int) (cv tv : Option JsVal) (s : String) (cnt : Option String) (cb : Option ClearBtn)
    (mn ft : Option Region) (tg : Option ToggleEl) (nt : Option InputEl)
    (fl fl2 : List FilterLink) :
    ((∀ n ∈ items, n.id ≠ i) →
      View.render v ⟨some items, cnt, cb, mn, ft, tg, nt, fl⟩ "removeItem" (.val (.num i)) =
        .ok ⟨some items, cnt, cb, mn, ft, tg, nt, fl⟩) ∧
    ((∀ n ∈ items, n.id ≠ i) →
      View.render v ⟨some items, cnt, cb, mn, ft, tg, nt, fl⟩ "elementComplete"
          (.obj { id := some (.num i), completed := cv }) =
        .ok ⟨some items, cnt, cb, mn, ft, tg, nt, fl⟩) ∧
    ((∀ n ∈ items, n.id ≠ i) →
      View.render v ⟨some items, cnt, cb, mn, ft, tg, nt, fl⟩ "editItem"
          (.obj { id := some (.num i), title := tv }) =
        .ok ⟨some items, cnt, cb, mn, ft, tg, nt, fl⟩) ∧
    ((∀ n ∈ items, n.id ≠ i) →
      View.render v ⟨some items, cnt, cb, mn, ft, tg, nt, fl⟩ "editItemDone"
          (.obj { id := some (.num i), title := tv }) =
        .ok ⟨some items, cnt, cb, mn, ft, tg, nt, fl⟩) ∧
    ((∀ m ∈ pre, m.id ≠ i) → nd.id = i → nd.edit = none →
      View.render v ⟨some (pre ++ nd :: post), cnt, cb, mn, ft, tg, nt, fl⟩ "editItemDone"
          (.obj { id := some (.num i), title := tv }) =
        .error (.typeError "Failed to execute removeChild on Node")) ∧
    ((∀ l ∈ fl, hasClass l.className "selected" = false) →
      View.render v ⟨some items, cnt, cb, mn, ft, tg, nt, fl⟩ "setFilter" (.val (.str s)) =
        .error (.typeError "Cannot set className of null")) ∧
    ((clearFirstSelected fl = some fl2) → (∀ l ∈ fl2, l.href ≠ "#/" ++ s) →
      View.render v ⟨some items, cnt, cb, mn, ft, tg, nt, fl⟩ "setFilter" (.val (.str s)) =
        .error (.typeError "Cannot set className of null")) := by
  refine ⟨?_, ?_, ?_, ?_, ?_, ?_, ?_⟩
  · intro h
    exact congrArg (fun l => Except.ok (⟨some l, cnt, cb, mn, ft, tg, nt, fl⟩ : Doc))
      (removeFirstNode_not_mem i items h)
  · intro h
    exact congrArg (fun l => Except.ok (⟨some l, cnt, cb, mn, ft, tg, nt, fl⟩ : Doc))
      (completeFirstNode_not_mem i (jsTruthy cv) items h)
  · intro h
    exact congrArg (fun l => Except.ok (⟨some l, cnt, cb, mn, ft, tg, nt, fl⟩ : Doc))
      (editFirstNode_not_mem i (jsValStr tv) items h)
  · intro h
    exact congrArg
      (fun r => Except.map (fun l => (⟨some l, cnt, cb, mn, ft, tg, nt, fl⟩ : Doc)) r)
      (editDoneList_not_mem i (jsValStr tv) items h)
  · intro hpre hid hedit
    exact congrArg
      (fun r => Except.map (fun l => (⟨some l, cnt, cb, mn, ft, tg, nt, fl⟩ : Doc)) r)
      (editDoneList_fault i (jsValStr tv) pre post nd hpre hid hedit)
  · intro h
    exact setFilterImpl_no_selected ⟨some items, cnt, cb, mn, ft, tg, nt, fl⟩ (some s)
      (clearFirstSelected_none fl h)
  · intro h1 h2
    exact setFilterImpl_no_href ⟨some items, cnt, cb, mn, ft, tg, nt, fl⟩ s fl2 h1
      (selectFirstHref_none ("#/" ++ s) fl2 h2)

/-- Witness for C3 at concrete inputs: a one-node list with id 1, probed
with id 2 for the no-op commands; the faulting editItemDone and setFilter
cases at concrete surfaces. -/
theorem c3_missing_node_behaviour_witness :
    (∀ n ∈ [(⟨1, "", false, "t", none⟩ : ItemNode)], n.id ≠ 2) ∧
    View.render cexView ⟨some [⟨1, "", false, "t", none⟩], some "", some ⟨"", ""⟩, some ⟨""⟩,
        some ⟨""⟩, some ⟨false⟩, some ⟨""⟩, []⟩ "elementComplete"
        (.obj { id := some (.num 2), completed := some (.bool true) }) =
      .ok ⟨some [⟨1, "", false, "t", none⟩], some "", some ⟨"", ""⟩, some ⟨""⟩, some ⟨""⟩,
        some ⟨false⟩, some ⟨""⟩, []⟩ ∧
    ((⟨1, "", false, "t", none⟩ : ItemNode).id = 1 ∧
      (⟨1, "", false, "t", none⟩ : ItemNode).edit = none ∧
      View.render cexView ⟨some [⟨1, "", false, "t", none⟩], some "", some ⟨"", ""⟩, some ⟨""⟩,
          some ⟨""⟩, some ⟨false⟩, some ⟨""⟩, []⟩ "editItemDone"
          (.obj { id := some (.num 1), title := some (.str "x") }) =
        .error (.typeError "Failed to execute removeChild on Node")) ∧
    ((∀ l ∈ [(⟨"#/", ""⟩ : FilterLink)], hasClass l.className "selected" = false) ∧
      View.render cexView ⟨some [⟨1, "", false, "t", none⟩], some "", some ⟨"", ""⟩, some ⟨""⟩,
          some ⟨""⟩, some ⟨false⟩, some ⟨""⟩, [⟨"#/", ""⟩]⟩ "setFilter" (.val (.str "active")) =
        .error (.typeError "Cannot set className of null")) :=
  ⟨by decide,
    (c3_missing_node_behaviour cexView [⟨1, "", false, "t", none⟩] [] []
        ⟨1, "", false, "t", none⟩ 2 (some (.bool true)) (some (.str "x")) "active" (some "")
        (some ⟨"", ""⟩) (some ⟨""⟩) (some ⟨""⟩) (some ⟨false⟩) (some ⟨""⟩) [] []).2.1
      (by decide),
    ⟨by decide, by decide,
      (c3_missing_node_behaviour cexView [⟨1, "", false, "t", none⟩] [] []
          ⟨1, "", false, "t", none⟩ 1 (some (.bool true)) (some (.str "x")) "active" (some "")
          (some ⟨"", ""⟩) (some ⟨""⟩) (some ⟨""⟩) (some ⟨false⟩) (some ⟨""⟩) [] []).2.2.2.2.1
        (by decide) (by decide) (by decide)⟩,
    ⟨by decide,
      (c3_missing_node_behaviour cexView [⟨1, "", false, "t", none⟩] [] []
          ⟨1, "", false, "t", none⟩ 1 (some (.bool true)) (some (.str "x")) "active" (some "")
          (some ⟨"", ""⟩) (some ⟨""⟩) (some ⟨""⟩) (some ⟨false⟩) (some ⟨""⟩) [⟨"#/", ""⟩]
          []).2.2.2.2.2.1 (by decide)⟩⟩

/-- Claim C7, counterexample: a parameter carrying `completedCount` but no
`completed` field yields a label built from `undefined`, not from the
`completedCount` value, refuting the claimed payload shape. -/
theorem c7_reads_completed_not_completedCount_cex :
    View.render cexView (allAnchorsDoc [] "" ⟨"old", "none"⟩ ⟨""⟩ ⟨""⟩ ⟨false⟩ ⟨""⟩ [])
        "clearCompletedButton"
        (.obj { completedCount := some (.num 5), visible := some (.bool true) }) =
      .ok (allAnchorsDoc [] "" ⟨"UNDEF", "block"⟩ ⟨""⟩ ⟨""⟩ ⟨false⟩ ⟨""⟩ []) ∧
    cexTemplate.clearCompletedButton (some (.num 5)) = "N5" ∧
    "UNDEF" ≠ "N5" :=
  ⟨rfl, rfl, by decide⟩

/-- The hrefs of the filter links currently carrying the selected
marker, in document order. -/
def selectedHrefs (ls : List FilterLink) : List String :=
  (ls.filter (fun l => hasClass l.className "selected")).map FilterLink.href

/-- Claim C8: starting from the standard filter bar (links at `#/`,
`#/active`, `#/completed`, exactly one of them marked), `setFilter(p)`
leaves exactly one link carrying the selected marker — the one whose href
matches p — and a subsequent `setFilter(q)` moves the marker to q's link
without ever leaving two links marked. -/
theorem c8_setFilter_unique_marker (v : View) (tl : Option (List ItemNode))
    (cnt : Option String) (cb : Option ClearBtn) (mn ft : Option Region) (tg : Option ToggleEl)
    (nt : Option InputEl) (a b c : String) (p q : String)
    (habc : (a = "selected" ∧ b = "" ∧ c = "") ∨ (a = "" ∧ b = "selected" ∧ c = "") ∨
      (a = "" ∧ b = "" ∧ c = "selected"))
    (hp : p = "" ∨ p = "active" ∨ p = "completed")
    (hq : q = "" ∨ q = "active" ∨ q = "completed") :
    ∃ d1 d2,
      View.render v ⟨tl, cnt, cb, mn, ft, tg, nt,
          [⟨"#/", a⟩, ⟨"#/active", b⟩, ⟨"#/completed", c⟩]⟩ "setFilter" (.val (.str p)) =
        .ok d1 ∧
      selectedHrefs d1.filters = ["#/" ++ p] ∧
      View.render v d1 "setFilter" (.val (.str q)) = .ok d2 ∧
      selectedHrefs d2.filters = ["#/" ++ q] := by
  rcases habc with ⟨rfl, rfl, rfl⟩ | ⟨rfl, rfl, rfl⟩ | ⟨rfl, rfl, rfl⟩ <;>
    rcases hp with rfl | rfl | rfl <;> rcases hq with rfl | rfl | rfl <;>
      exact ⟨_, _, rfl, rfl, rfl, rfl⟩

/-- Witness for C8: active-link selection moves from `#/` to `#/active`
to `#/completed` on the concrete standard filter bar. -/
theorem c8_setFilter_unique_marker_witness :
    (("selected" = "selected" ∧ "" = "" ∧ "" = "") ∨
      ("selected" = "" ∧ "" = "selected" ∧ "" = "") ∨
      ("selected" = "" ∧ "" = "" ∧ "" = "selected")) ∧
    ("active" = "" ∨ "active" = "active" ∨ "active" = "completed") ∧
    ("completed" = "" ∨ "completed" = "active" ∨ "completed" = "completed") ∧
    (∃ d1 d2,
      View.render cexView ⟨none, none, none, none, none, none, none,
          [⟨"#/", "selected"⟩, ⟨"#/active", ""⟩, ⟨"#/completed", ""⟩]⟩ "setFilter"
          (.val (.str "active")) =
        .ok d1 ∧
      selectedHrefs d1.filters = ["#/active"] ∧
      View.render cexView d1 "setFilter" (.val (.str "completed")) = .ok d2 ∧
      selectedHrefs d2.filters = ["#/completed"]) :=
  ⟨Or.inl ⟨rfl, rfl, rfl⟩, Or.inr (Or.inl rfl), Or.inr (Or.inr rfl),
    c8_setFilter_unique_marker cexView none none none none none none none
      "selected" "" "" "active" "completed" (Or.inl ⟨rfl, rfl, rfl⟩) (Or.inr (Or.inl rfl))
      (Or.inr (Or.inr rfl))⟩

/-- Claim C9, counterexample: a node whose initial visual class is
`completed` with a checked checkbox is left with an empty class and an
unchecked checkbox by the true/false pair — the original state is not
restored. -/
theorem c9_pair_toggle_cex :
    View.render cexView
        (allAnchorsDoc [⟨1, "completed", true, "t", none⟩] "" ⟨"", ""⟩ ⟨""⟩ ⟨""⟩ ⟨false⟩ ⟨""⟩ [])
        "elementComplete" (.obj { id := some (.num 1), completed := some (.bool true) }) =
      .ok (allAnchorsDoc [⟨1, "completed", true, "t", none⟩] "" ⟨"", ""⟩ ⟨""⟩ ⟨""⟩ ⟨false⟩
        ⟨""⟩ []) ∧
    View.render cexView
        (allAnchorsDoc [⟨1, "completed", true, "t", none⟩] "" ⟨"", ""⟩ ⟨""⟩ ⟨""⟩ ⟨false⟩ ⟨""⟩ [])
        "elementComplete" (.obj { id := some (.num 1), completed := some (.bool false) }) =
      .ok (allAnchorsDoc [⟨1, "", false, "t", none⟩] "" ⟨"", ""⟩ ⟨""⟩ ⟨""⟩ ⟨false⟩ ⟨""⟩ []) ∧
    (⟨1, "", false, "t", none⟩ : ItemNode) ≠ ⟨1, "completed", true, "t", none⟩ :=
  ⟨rfl, rfl, by decide⟩

/-- Claim C9, amended: `elementComplete` overwrites the node's visual
class and checkbox outright, so the true/false pair normalizes the first
matching node to the empty class with an unchecked checkbox; the original
state is restored exactly when it already was that cleared state. -/
theorem c9_pair_toggle_normalizes (v : View) (pre post : List ItemNode) (nd : ItemNode)
    (i : Int) (cnt : Option String) (cb : Option ClearBtn) (mn ft : Option Region)
    (tg : Option ToggleEl) (nt : Option InputEl) (fl : List FilterLink)
    (hpre : ∀ m ∈ pre, m.id ≠ i) (hid : nd.id = i) :
    (∃ d1,
      View.render v ⟨some (pre ++ nd :: post), cnt, cb, mn, ft, tg, nt, fl⟩ "elementComplete"
          (.obj { id := some (.num i), completed := some (.bool true) }) = .ok d1 ∧
      View.render v d1 "elementComplete"
          (.obj { id := some (.num i), completed := some (.bool false) }) =
        .ok ⟨some (pre ++ ({ nd with className := "", checked := false } :: post)), cnt, cb,
          mn, ft, tg, nt, fl⟩) ∧
    ({ nd with className := "", checked := false } = nd ↔
      (nd.className = "" ∧ nd.checked = false)) := by
  constructor
  · refine ⟨⟨some (pre ++ ({ nd with className := "completed", checked := true } :: post)),
      cnt, cb, mn, ft, tg, nt, fl⟩, ?_, ?_⟩
    · exact congrArg (fun l => Except.ok (⟨some l, cnt, cb, mn, ft, tg, nt, fl⟩ : Doc))
        (completeFirstNode_first i true pre post nd hpre hid)
    · exact congrArg (fun l => Except.ok (⟨some l, cnt, cb, mn, ft, tg, nt, fl⟩ : Doc))
        (completeFirstNode_first i false pre post
          { nd with className := "completed", checked := true } hpre hid)
  · constructor
    · intro he
      exact ⟨(congrArg ItemNode.className he).symm, (congrArg ItemNode.checked he).symm⟩
    · rintro ⟨h1, h2⟩
      obtain ⟨nid, ncl, nck, nlb, ned⟩ := nd
      simp only at h1 h2
      rw [h1, h2]

/-- Witness for C9 at a concrete completed-and-checked node with id 1. -/
theorem c9_pair_toggle_normalizes_witness :
    (∀ m ∈ ([] : List ItemNode), m.id ≠ 1) ∧
    (⟨1, "completed", true, "t", none⟩ : ItemNode).id = 1 ∧
    ((∃ d1,
      View.render cexView ⟨some ([] ++ (⟨1, "completed", true, "t", none⟩ : ItemNode) :: []),
          some "", some ⟨"", ""⟩, some ⟨""⟩, some ⟨""⟩, some ⟨false⟩, some ⟨""⟩, []⟩
          "elementComplete" (.obj { id := some (.num 1), completed := some (.bool true) }) =
        .ok d1 ∧
      View.render cexView d1 "elementComplete"
          (.obj { id := some (.num 1), completed := some (.bool false) }) =
        .ok ⟨some ([] ++ ((⟨1, "", false, "t", none⟩ : ItemNode) :: [])), some "",
          some ⟨"", ""⟩, some ⟨""⟩, some ⟨""⟩, some ⟨false⟩, some ⟨""⟩, []⟩) ∧
    ((⟨1, "", false, "t", none⟩ : ItemNode) = ⟨1, "completed", true, "t", none⟩ ↔
      ((⟨1, "completed", true, "t", none⟩ : ItemNode).className = "" ∧
        (⟨1, "completed", true, "t", none⟩ : ItemNode).checked = false))) :=
  ⟨by decide, by decide,
    c9_pair_toggle_normalizes cexView [] [] ⟨1, "completed", true, "t", none⟩ 1 (some "")
      (some ⟨"", ""⟩) (some ⟨""⟩) (some ⟨""⟩) (some ⟨false⟩) (some ⟨""⟩) [] (by decide)
      (by decide)⟩

end TodoView
